import Mathlib

/-!
Verification of the paste-pouch backend (src/main.ts) against its
natural-language specification.  The TypeScript source is shallowly embedded:
the in-memory rate limiter becomes a step function on an explicit record,
the oak middleware stack becomes an explicit composition in registration
order, and the relational store becomes a list-of-rows state threaded through
the handlers.  Timestamps (Date.now, milliseconds) are natural numbers.
-/

/-! ## Rate limiter (src/main.ts lines 187-220)

Per client key the source keeps a record in rateLimitMap; all requests below
are for a single fixed key, so the state is just Option ClientData. -/

/-- interface ClientData (count, lastRequestTime).  Despite its name,
lastRequestTime is written only in the reset branch, so it holds the start of
the current window. -/
structure ClientData where
  count : Nat
  lastRequestTime : Nat
deriving Repr, DecidableEq

def RATE_LIMIT_WINDOW : Nat := 10 * 1000

def MAX_REQUESTS : Nat := 10

/-- One invocation of rateLimiter for a fixed client key: the map lookup,
the three branches, and the map update, exactly as in the source (the body
from the lookup to the set contains no await, so in the single-threaded
JavaScript runtime it executes atomically).  Returns (admitted, new record):
admitted = true means next() is invoked, false means the 429 branch ran. -/
def rateLimiterStep (clientData : Option ClientData) (timestamp : Nat) :
    Bool × Option ClientData :=
  match clientData with
  | none => (true, some ⟨1, timestamp⟩)
  | some cd =>
    if timestamp > cd.lastRequestTime + RATE_LIMIT_WINDOW then
      (true, some ⟨1, timestamp⟩)
    else if cd.count > MAX_REQUESTS then
      (false, some cd)
    else
      (true, some ⟨cd.count + 1, cd.lastRequestTime⟩)

/-- Run a sequence of requests (their Date.now values) for one client key,
starting from a given record; returns the list of admission decisions in
order and the final record.  Because each rateLimiter invocation is atomic
(no await between the map read and the map write), any interleaving of
concurrent requests is serialized into such a sequence. -/
def runRequests (st : Option ClientData) : List Nat → List Bool × Option ClientData
  | [] => ([], st)
  | t :: ts =>
    let step := rateLimiterStep st t
    let rest := runRequests step.2 ts
    (step.1 :: rest.1, rest.2)

/-! ## Middleware stack (src/main.ts lines 222-225)

The source registers, in order: router.routes(), router.allowedMethods(),
rateLimiter.  oak executes middleware in registration order; a matched route
handler does not call next, so it terminates the chain.  The context records
whether the request path and method match a registered route, plus the rate
limit record of the requesting client. -/

structure AppCtx where
  matchedRoute : Bool
  clientData : Option ClientData
  timestamp : Nat
deriving Repr, DecidableEq

/-- Outcome of the middleware chain: response status, whether a route handler
body executed, whether the rateLimiter middleware executed, and the client
rate-limit record afterwards. -/
structure AppResult where
  status : Nat
  handlerRan : Bool
  rateLimiterRan : Bool
  clientDataAfter : Option ClientData
deriving Repr, DecidableEq

/-- router.routes(): dispatches to a matching route handler (which runs its
body, responds, and does not call next); when no route matches, control
passes to the next middleware. -/
def routesMw (ctx : AppCtx) (next : AppCtx → AppResult) : AppResult :=
  if ctx.matchedRoute then
    { status := 200, handlerRan := true, rateLimiterRan := false,
      clientDataAfter := ctx.clientData }
  else next ctx

/-- router.allowedMethods(): for the paths relevant here it passes through. -/
def allowedMethodsMw (ctx : AppCtx) (next : AppCtx → AppResult) : AppResult :=
  next ctx

/-- rateLimiter as middleware: on rejection responds 429 and returns without
calling next; on admission awaits next(). -/
def rateLimiterMw (ctx : AppCtx) (next : AppCtx → AppResult) : AppResult :=
  match rateLimiterStep ctx.clientData ctx.timestamp with
  | (true, newData) =>
    let r := next { ctx with clientData := newData }
    { r with rateLimiterRan := true }
  | (false, newData) =>
    { status := 429, handlerRan := false, rateLimiterRan := true,
      clientDataAfter := newData }

/-- oak default response when no middleware handles the request. -/
def chainEnd (ctx : AppCtx) : AppResult :=
  { status := 404, handlerRan := false, rateLimiterRan := false,
    clientDataAfter := ctx.clientData }

/-- The application pipeline in the registration order of the source:
app.use(router.routes()); app.use(router.allowedMethods());
app.use(rateLimiter). -/
def runApp (ctx : AppCtx) : AppResult :=
  routesMw ctx (fun c1 => allowedMethodsMw c1 (fun c2 => rateLimiterMw c2 chainEnd))

/-! ## Theorems about the rate limiter and the middleware order -/

/-- Claim C1: the claim says the (C+1)-th request (C = 10) inside one window
is rejected with 429.  Evaluating the code: starting from no record, eleven
requests all at the same instant (hence all within window W of the first)
are all admitted — the eleventh is admitted, not rejected, because the
rejection test is count > MAX_REQUESTS after increments. -/
theorem rateLimiter_admits_eleventh_request :
    (runRequests none (List.replicate (MAX_REQUESTS + 1) 0)).1 =
      List.replicate (MAX_REQUESTS + 1) true := by
  decide

/-- Claim C2: the claim says the rate limiter decides before any route
handler runs.  Evaluating the code: a request matching a route, from a
client whose record already stands at count 100 inside the current window
(a state the limiter itself would reject, last conjunct), is handled with
status 200, the handler body runs, and the rateLimiter middleware never
executes — because app.use(rateLimiter) comes after app.use(router.routes()). -/
theorem middleware_order_skips_rateLimiter :
    (runApp ⟨true, some ⟨100, 0⟩, 5⟩).handlerRan = true ∧
    (runApp ⟨true, some ⟨100, 0⟩, 5⟩).rateLimiterRan = false ∧
    (runApp ⟨true, some ⟨100, 0⟩, 5⟩).status = 200 ∧
    rateLimiterStep (some ⟨100, 0⟩) 5 = (false, some ⟨100, 0⟩) := by
  decide

/-- Claim C4: the claim says no interleaving of concurrent requests from one
key admits more than C = 10 inside a window.  Each limiter invocation is
atomic, so every interleaving is a serialization; evaluating the code on the
serialization of eleven simultaneous requests: all eleven are admitted,
exceeding the capacity MAX_REQUESTS = 10. -/
theorem concurrent_burst_admits_eleven :
    ((runRequests none (List.replicate 11 5)).1.count true = MAX_REQUESTS + 1) ∧
    MAX_REQUESTS + 1 > MAX_REQUESTS := by
  decide

/-- Claim C7: a request strictly later than windowStart + W is admitted and
resets the record to count = 1 and window start = the new request time,
whatever the stored count was. -/
theorem rateLimiter_expired_window_resets (cd : ClientData) (t : Nat)
    (h : cd.lastRequestTime + RATE_LIMIT_WINDOW < t) :
    rateLimiterStep (some cd) t = (true, some ⟨1, t⟩) := by
  simp [rateLimiterStep, h]

theorem rateLimiter_expired_window_resets_witness :
    (⟨7, 3⟩ : ClientData).lastRequestTime + RATE_LIMIT_WINDOW < 10004 ∧
    rateLimiterStep (some ⟨7, 3⟩) 10004 = (true, some ⟨1, 10004⟩) :=
  ⟨by decide, rateLimiter_expired_window_resets ⟨7, 3⟩ 10004 (by decide)⟩

/-! ## Identifier generation (src/main.ts lines 31-35)

generateId calls customAlphabet("0123456789ABCDEFGHIJKLMNOPQRSTUVWXYZ", 16)
from the nanoid library and invokes the resulting generator once.  The
library contract: the generator returns a string of exactly size characters,
each picked from the given alphabet at a random index.  The randomness is
embedded as a function draw from position to a natural number, reduced
modulo the alphabet length to an index. -/

def alphabet : String := "0123456789ABCDEFGHIJKLMNOPQRSTUVWXYZ"

/-- Behaviour of a generator produced by customAlphabet(alpha, size): a
size-character string whose character at position i is the alphabet entry at
the i-th random draw. -/
def customAlphabet (alpha : String) (size : Nat) (draw : Nat → Nat) : String :=
  String.mk ((List.range size).map
    (fun i => alpha.data.getD (draw i % alpha.data.length) 'A'))

def generateId (draw : Nat → Nat) : String :=
  customAlphabet alphabet 16 draw

theorem generateId_length_eq (draw : Nat → Nat) : (generateId draw).length = 16 := by
  show ((List.range 16).map
    (fun i => alphabet.data.getD (draw i % alphabet.data.length) 'A')).length = 16
  simp

theorem generateId_ne_empty (draw : Nat → Nat) : generateId draw ≠ "" := by
  intro h
  have h16 := generateId_length_eq draw
  rw [h] at h16
  exact absurd h16 (by decide)

/-- Claim C9: every generated id has length exactly 16 and draws every
character from the fixed 36-symbol alphabet of decimal digits and uppercase
Latin letters, whatever the random draws were. -/
theorem generateId_sixteen_chars_from_alphabet (draw : Nat → Nat) :
    (generateId draw).length = 16 ∧
    alphabet.length = 36 ∧
    ∀ c ∈ (generateId draw).data, c ∈ alphabet.data := by
  refine ⟨generateId_length_eq draw, by decide, ?_⟩
  intro c hc
  have hc2 : c ∈ (List.range 16).map
      (fun i => alphabet.data.getD (draw i % alphabet.data.length) 'A') := hc
  rw [List.mem_map] at hc2
  obtain ⟨i, _, hci⟩ := hc2
  have hlen : 0 < alphabet.data.length := by decide
  have hlt : draw i % alphabet.data.length < alphabet.data.length := Nat.mod_lt _ hlen
  rw [List.getD_eq_getElem _ _ hlt] at hci
  rw [← hci]
  exact List.getElem_mem hlt

/-! ## Store state and request handlers (src/main.ts lines 37-185)

The relational store is embedded as the lists of rows of the two tables.
Each sql tagged-template call can throw (connectivity failure); whether a
given SELECT throws is passed in as a Boolean.  An INSERT into pastes fails
when it would violate the primary-key constraint on id or the foreign-key
constraint on userid. -/

structure UserRow where
  id : String
  timestamp : Nat
deriving Repr, DecidableEq

structure PasteRow where
  id : String
  content : String
  format : String
  timestamp : Nat
  userid : Option String
deriving Repr, DecidableEq

structure DB where
  users : List UserRow
  pastes : List PasteRow
deriving Repr, DecidableEq

/-- validateUser (lines 37-54): SELECT * FROM users WHERE id = ...; returns
false when the query throws (queryFails) and when the result set is empty,
true otherwise. -/
def validateUser (db : DB) (queryFails : Bool) (id : String) : Bool :=
  if queryFails then false
  else
    let userExistsRes := db.users.filter (fun u => u.id == id)
    if userExistsRes.length == 0 then false else true

/-- Response of the two read handlers: status plus the rows returned in the
200 case. -/
structure Response where
  status : Nat
  rows : List PasteRow
deriving Repr, DecidableEq

/-- GET /read-paste/:id (lines 117-147): empty id is falsy (400); a throwing
SELECT is caught and answered with status 403; an empty result set gives
404; otherwise 200 with the matching rows. -/
def readPasteHandler (db : DB) (queryFails : Bool) (id : String) : Response :=
  if id = "" then ⟨400, []⟩
  else if queryFails then ⟨403, []⟩
  else
    let pasteRes := db.pastes.filter (fun p => p.id == id)
    if pasteRes.length == 0 then ⟨404, []⟩
    else ⟨200, pasteRes⟩

/-- The guard in GET /read-pastes/:id is written if (!validateUser(id)),
but validateUser is async and the call is not awaited, so the value being
tested is a Promise object, which is always truthy in JavaScript; the guard
condition is therefore constantly false and the 403 branch is dead. -/
def unawaitedPromiseIsFalsy : Bool := false

/-- Result of GET /read-pastes/:id, also recording whether the SELECT on the
pastes table was issued. -/
structure ReadPastesResult where
  status : Nat
  rows : List PasteRow
  queriedPastes : Bool
deriving Repr, DecidableEq

/-- GET /read-pastes/:id (lines 149-185): empty id is falsy (400); the
ownership guard tests the unawaited promise; a throwing SELECT is caught and
answered with status 403; an empty result set gives 404; otherwise 200. -/
def readPastesHandler (db : DB) (queryFails : Bool) (id : String) : ReadPastesResult :=
  if id = "" then ⟨400, [], false⟩
  else if unawaitedPromiseIsFalsy then ⟨403, [], false⟩
  else if queryFails then ⟨403, [], true⟩
  else
    let pasteRes := db.pastes.filter (fun p => p.userid == some id)
    if pasteRes.length == 0 then ⟨404, [], true⟩
    else ⟨200, pasteRes, true⟩

/-- INSERT INTO pastes: none models the statement throwing on a constraint
violation (duplicate primary key, or a userid that references no user row);
some gives the store with the row appended. -/
def insertPaste (db : DB) (row : PasteRow) : Option DB :=
  if db.pastes.any (fun p => p.id == row.id) then none
  else
    match row.userid with
    | none => some { db with pastes := db.pastes ++ [row] }
    | some u =>
      if db.users.any (fun x => x.id == u) then
        some { db with pastes := db.pastes ++ [row] }
      else none

/-- Outcome of POST /create-paste: status, response body (the new id on 200),
the store afterwards, and whether validateUser was invoked and awaited. -/
structure CreatePasteResult where
  status : Nat
  body : String
  db : DB
  calledValidate : Bool
deriving Repr, DecidableEq

/-- POST /create-paste (lines 78-115).  body.userid has TypeScript type
string | null; none stands for null or an absent field.  The source tests
if (!userid), so none and the empty string both take the anonymous branch;
otherwise validateUser(userid) is awaited and a false verdict answers 403
with no insertion; a throwing INSERT is caught and answered 400. -/
def createPasteHandler (db : DB) (validateQueryFails : Bool)
    (content format : String) (userid : Option String)
    (draw : Nat → Nat) (timestamp : Nat) : CreatePasteResult :=
  let id := generateId draw
  match userid with
  | none =>
    match insertPaste db ⟨id, content, format, timestamp, none⟩ with
    | some db2 => ⟨200, id, db2, false⟩
    | none => ⟨400, "Could not create paste for some reason, ask devs to check the logs", db, false⟩
  | some u =>
    if u = "" then
      match insertPaste db ⟨id, content, format, timestamp, none⟩ with
      | some db2 => ⟨200, id, db2, false⟩
      | none => ⟨400, "Could not create paste for some reason, ask devs to check the logs", db, false⟩
    else if ! validateUser db validateQueryFails u then
      ⟨403, "You are not authorized to make this paste.", db, true⟩
    else
      match insertPaste db ⟨id, content, format, timestamp, some u⟩ with
      | some db2 => ⟨200, id, db2, true⟩
      | none => ⟨400, "Could not create paste for some reason, ask devs to check the logs", db, true⟩

/-! ## Theorems about the handlers -/

/-- Claim C3: the claim says an id that references no existing user is
answered 403 and never reaches the pastes query.  Evaluating the code on an
id with no user row: the unawaited-promise guard is skipped, the pastes
SELECT is issued (queriedPastes = true), and the response is 404, not 403;
second conjunct: an awaited validateUser would have rejected this id. -/
theorem readPastes_unknown_user_reaches_query :
    readPastesHandler ⟨[], []⟩ false "USERX" = ⟨404, [], true⟩ ∧
    validateUser ⟨[], []⟩ false "USERX" = false := by
  decide

/-- Claim C5: the claim says a failed store query is answered with 400 in
every handler, in particular in the two read handlers.  Evaluating the code
with a throwing SELECT: GET /read-paste/:id answers 403 and
GET /read-pastes/:id answers 403 (even for an id whose user row exists),
not 400. -/
theorem read_handlers_store_failure_give_403 :
    readPasteHandler ⟨[], []⟩ true "PASTE1" = ⟨403, []⟩ ∧
    (readPastesHandler ⟨[⟨"USER1", 0⟩], []⟩ true "USER1").status = 403 := by
  decide

/-- Claim C6: POST /create-paste with a present ownerId that references no
existing user row answers 403 via AuthorizationError and leaves the store
unchanged (no row written); this holds whether or not the validation SELECT
also fails, since validateUser fails closed. -/
theorem createPaste_invalid_owner_rejected (db : DB) (vqf : Bool)
    (content format uid : String) (draw : Nat → Nat) (ts : Nat)
    (hne : uid ≠ "") (hno : ∀ u ∈ db.users, u.id ≠ uid) :
    createPasteHandler db vqf content format (some uid) draw ts =
      ⟨403, "You are not authorized to make this paste.", db, true⟩ := by
  have hfil : db.users.filter (fun u => u.id == uid) = [] := by
    rw [List.filter_eq_nil_iff]
    intro u hu
    simp [hno u hu]
  have hv : validateUser db vqf uid = false := by
    cases vqf <;> simp [validateUser, hfil]
  simp [createPasteHandler, hne, hv]

theorem createPaste_invalid_owner_rejected_witness :
    ("Z0" ≠ "" ∧ ∀ u ∈ (⟨[⟨"A", 0⟩], []⟩ : DB).users, u.id ≠ "Z0") ∧
    createPasteHandler ⟨[⟨"A", 0⟩], []⟩ false "hello" "txt" (some "Z0") (fun _ => 0) 0 =
      ⟨403, "You are not authorized to make this paste.", ⟨[⟨"A", 0⟩], []⟩, true⟩ :=
  ⟨⟨by decide, by decide⟩,
    createPaste_invalid_owner_rejected ⟨[⟨"A", 0⟩], []⟩ false "hello" "txt" "Z0"
      (fun _ => 0) 0 (by decide) (by decide)⟩

/-- Claim C8: round trip — when the generated id is fresh (the insertion
succeeds), creating a paste with no owner and then reading it back by the
returned id answers 200 with exactly the submitted content and format. -/
theorem createPaste_then_readPaste_roundtrip (db : DB) (content format : String)
    (draw : Nat → Nat) (ts : Nat)
    (hfresh : ∀ p ∈ db.pastes, p.id ≠ generateId draw) :
    (createPasteHandler db false content format none draw ts).status = 200 ∧
    readPasteHandler (createPasteHandler db false content format none draw ts).db false
        (createPasteHandler db false content format none draw ts).body =
      ⟨200, [⟨generateId draw, content, format, ts, none⟩]⟩ := by
  have hany : db.pastes.any (fun p => p.id == generateId draw) = false := by
    rw [List.any_eq_false]
    intro p hp
    simp [hfresh p hp]
  have hcreate : createPasteHandler db false content format none draw ts =
      ⟨200, generateId draw,
        ⟨db.users, db.pastes ++ [⟨generateId draw, content, format, ts, none⟩]⟩,
        false⟩ := by
    simp [createPasteHandler, insertPaste, hany]
  rw [hcreate]
  refine ⟨rfl, ?_⟩
  have h1 : db.pastes.filter (fun p => p.id == generateId draw) = [] := by
    rw [List.filter_eq_nil_iff]
    intro p hp
    simp [hfresh p hp]
  have hfil : List.filter (fun p : PasteRow => p.id == generateId draw)
      (db.pastes ++ [⟨generateId draw, content, format, ts, none⟩]) =
      [⟨generateId draw, content, format, ts, none⟩] := by
    rw [List.filter_append, h1]
    simp
  simp [readPasteHandler, generateId_ne_empty draw, hfil]

theorem createPaste_then_readPaste_roundtrip_witness :
    (∀ p ∈ (⟨[], []⟩ : DB).pastes, p.id ≠ generateId (fun _ => 0)) ∧
    ((createPasteHandler ⟨[], []⟩ false "hello world" "plain" none (fun _ => 0) 42).status = 200 ∧
     readPasteHandler
        (createPasteHandler ⟨[], []⟩ false "hello world" "plain" none (fun _ => 0) 42).db
        false
        (createPasteHandler ⟨[], []⟩ false "hello world" "plain" none (fun _ => 0) 42).body =
      ⟨200, [⟨generateId (fun _ => 0), "hello world", "plain", 42, none⟩]⟩) :=
  ⟨by simp, createPaste_then_readPaste_roundtrip ⟨[], []⟩ "hello world" "plain"
    (fun _ => 0) 42 (by simp)⟩

/-- Claim C10: a create-paste body whose userid is the empty string (or
null, embedded as none) takes the anonymous branch: the outcome equals the
outcome with userid absent, validateUser is never invoked, and no 403 is
possible. -/
theorem createPaste_empty_userid_is_anonymous (db : DB) (vqf : Bool)
    (content format : String) (draw : Nat → Nat) (ts : Nat) :
    createPasteHandler db vqf content format (some "") draw ts =
      createPasteHandler db vqf content format none draw ts ∧
    (createPasteHandler db vqf content format (some "") draw ts).calledValidate = false ∧
    (createPasteHandler db vqf content format (some "") draw ts).status ≠ 403 := by
  have heq : createPasteHandler db vqf content format (some "") draw ts =
      createPasteHandler db vqf content format none draw ts := by
    simp [createPasteHandler]
  refine ⟨heq, ?_, ?_⟩ <;> rw [heq] <;> simp only [createPasteHandler] <;>
    cases h : insertPaste db ⟨generateId draw, content, format, ts, none⟩ <;> simp [h]
